import Mathlib

/-!
# Verification of the quiz bot (src/bot.py)

Shallow embedding of the session/scoring core of the Telegram MCQ quiz bot.
The SQLite tables `sessions` and `polls_map` are modelled as lists of rows
kept in `rowid` order (oldest first); `REPLACE INTO sessions` deletes the
conflicting primary-key row and appends a fresh row (SQLite assigns a new,
larger rowid).  Python `dict`s with string-of-int keys are modelled as
association lists over `Nat` keys with in-place overwrite, which matches
`d[k] = v` semantics on the unique-key lists the program builds.
Messaging-gateway calls are modelled as emitted `Action`s; a call that the
source wraps in `try/except` and that may fail is driven by an explicit
success oracle where a claim depends on failure (poll sending).
-/

namespace QuizBot

/-- A parsed MCQ record, as produced by `parse_mcqs_from_text` and then
decorated by the LLM call in `handle_document`:
`{'num': int, 'question': str, 'options': [str], 'correct_index': int|None,
'explanation': str|None}`. -/
structure Question where
  num : Nat
  question : String
  options : List String
  correct_index : Option Nat
  explanation : Option String
deriving DecidableEq

/-- The `questions_json` column of the `sessions` table: either the JSON of a
list of question dicts, or the JSON marker list `["__AWAITING_CUSTOM__"]`
stored by the "Custom" branch of `on_set_duration`. -/
inductive QJson where
  | real : List Question → QJson
  | marker : QJson
deriving DecidableEq

/-- Per-user tally, the value stored under `scores[str(user_id)]`:
`{"correct": int, "wrong": int, "answers": {str(q_index): int|None}}`.
The `answers` dict is an association list from question index to the chosen
option index (`none` models Python `None`, a retracted/abstained vote). -/
structure UserScore where
  correct : Nat
  wrong : Nat
  answers : List (Nat × Option Nat)
deriving DecidableEq

/-- The default tally `{"correct":0, "wrong":0, "answers":{}}`. -/
def emptyUserScore : UserScore := ⟨0, 0, []⟩

/-- The `scores` dict of a session: user id → tally. -/
abbrev Scores := List (Nat × UserScore)

/-- `d.get(k)` on an association list. -/
def getKey {α : Type} : List (Nat × α) → Nat → Option α
  | [], _ => none
  | (k0, v0) :: t, k => if k0 == k then some v0 else getKey t k

/-- `d.get(k, dflt)`. -/
def getKeyD {α : Type} (l : List (Nat × α)) (k : Nat) (d : α) : α :=
  (getKey l k).getD d

/-- `d[k] = v`: overwrite in place if the key is present, else append
(Python dicts keep unique keys in insertion order). -/
def setKey {α : Type} : List (Nat × α) → Nat → α → List (Nat × α)
  | [], k, v => [(k, v)]
  | (k0, v0) :: t, k, v =>
    if k0 == k then (k, v) :: t else (k0, v0) :: setKey t k v

/-- A row of the `sessions` table. -/
structure SessionRow where
  chat_id : Int
  session_id : String
  questions : QJson
  current_q : Nat
  scores : Scores
  start_ts : Int
  end_ts : Int
deriving DecidableEq

/-- A row of the append-only `polls_map` table. -/
structure PollRow where
  chat_id : Int
  poll_id : String
  session_id : String
  q_index : Nat
deriving DecidableEq

/-- The dict returned by `load_session` (the row minus its key columns). -/
structure Session where
  questions : QJson
  current_q : Nat
  scores : Scores
  start_ts : Int
  end_ts : Int
deriving DecidableEq

/-- The whole database: both tables, rows in rowid order (oldest first). -/
structure BotState where
  sessions : List SessionRow
  polls_map : List PollRow
deriving DecidableEq

/-- An outbound messaging-gateway call. -/
inductive Action where
  | sendMessage : Int → String → Action
  | replyTo : Int → String → Action
  | sendPoll : Int → String → List String → Action
  | sendDM : Nat → String → Action
  | answerCallback : String → Action
  | sendKeyboard : Int → String → List (String × String) → Action
  | scheduleEnd : Int → String → Int → Action
deriving DecidableEq

/-- `str.strip()`: drop whitespace from both ends (structural model of the
Python primitive; Lean core's `String.trim` is not kernel-reducible). -/
def stripChars (l : List Char) : List Char :=
  ((l.dropWhile Char.isWhitespace).reverse.dropWhile Char.isWhitespace).reverse

/-- The numeric value of a digit string, `int()` on digits. -/
def digitsVal (l : List Char) : Nat :=
  l.foldl (fun n c => n * 10 + (c.toNat - '0'.toNat)) 0

/-- `int(s)` as used on callback data: optional minus sign followed by
digits (Python also strips whitespace and accepts a plus sign; no caller
produces either). -/
def pyToInt? (s : String) : Option Int :=
  match s.data with
  | [] => none
  | '-' :: rest =>
    if rest ≠ [] ∧ rest.all Char.isDigit then some (-(digitsVal rest : Int))
    else none
  | l => if l.all Char.isDigit then some ((digitsVal l : Int)) else none

/-- `doc.file_name.lower().endswith(".pdf")`. -/
def fileNameIsPdf (name : String) : Bool :=
  (".pdf".data).isSuffixOf (name.data.map Char.toLower)

/-- `save_session`: `REPLACE INTO sessions` — delete the `(chat_id,
session_id)` primary-key row if present, insert the new row with a fresh
(maximal) rowid, i.e. at the end of the list. -/
def save_session (st : BotState) (chat_id : Int) (session_id : String)
    (questions : QJson) (current_q : Nat) (scores : Scores)
    (start_ts end_ts : Int) : BotState :=
  { st with sessions := st.sessions.filter (fun r => !(r.chat_id == chat_id && r.session_id == session_id)) ++ [⟨chat_id, session_id, questions, current_q, scores, start_ts, end_ts⟩] }

/-- `load_session`: `SELECT ... WHERE chat_id=? AND session_id=?` and
`fetchone` (first row in rowid order). -/
def load_session (st : BotState) (chat_id : Int) (session_id : String) :
    Option Session :=
  (st.sessions.find?
      (fun r => r.chat_id == chat_id && r.session_id == session_id)).map
    (fun r => ⟨r.questions, r.current_q, r.scores, r.start_ts, r.end_ts⟩)

/-- `map_poll_to_q`: `INSERT INTO polls_map` (append-only). -/
def map_poll_to_q (st : BotState) (chat_id : Int) (poll_id : String)
    (session_id : String) (q_index : Nat) : BotState :=
  { st with polls_map := st.polls_map ++ [⟨chat_id, poll_id, session_id, q_index⟩] }

/-- Result row of `lookup_poll`. -/
structure PollInfo where
  chat_id : Int
  session_id : String
  q_index : Nat
deriving DecidableEq

/-- `lookup_poll`: `SELECT chat_id, session_id, q_index FROM polls_map WHERE
poll_id=?`, `fetchone` (first matching row in rowid order). -/
def lookup_poll (st : BotState) (poll_id : String) : Option PollInfo :=
  (st.polls_map.find? (fun r => r.poll_id == poll_id)).map
    (fun r => ⟨r.chat_id, r.session_id, r.q_index⟩)

/-- An incoming Telegram `poll_answer` update: the poll id, the answering
user's id, and the selected option indices (`[]` when the vote is
retracted / no option is selected). -/
structure PollAnswer where
  poll_id : String
  user_id : Nat
  option_ids : List Nat
deriving DecidableEq

/-- The tally update performed by the body of `handle_poll_answer` once the
question is resolved (bot.py lines 175–189): record the chosen option under
the question index (last write wins), then increment `correct` when an
option was chosen, the question's correct index is known, and they agree —
otherwise increment `wrong`. -/
def recordAnswer (correct_idx : Option Nat) (scores : Scores)
    (q_index user_id : Nat) (option_ids : List Nat) : Scores :=
  let user_scores := getKeyD scores user_id emptyUserScore
  let chosen : Option Nat := option_ids.head?
  let user_answers := setKey user_scores.answers q_index chosen
  let user_scores' :=
    if (match chosen, correct_idx with
        | some c, some ci => c == ci
        | _, _ => false) then
      { user_scores with correct := user_scores.correct + 1,
                         answers := user_answers }
    else
      { user_scores with wrong := user_scores.wrong + 1,
                         answers := user_answers }
  setKey scores user_id user_scores'

/-- `handle_poll_answer` (bot.py lines 163–190) as a transformer of the
database state.  An unmapped poll id or a missing session returns without a
write.  A session whose `questions_json` is the custom marker, or a mapped
question index out of range, makes `questions[q_index].get("correct_index")`
raise in Python before any write — modelled as leaving the state unchanged. -/
def handle_poll_answer (st : BotState) (pa : PollAnswer) : BotState :=
  match lookup_poll st pa.poll_id with
  | none => st
  | some m =>
    match load_session st m.chat_id m.session_id with
    | none => st
    | some s =>
      match s.questions with
      | QJson.marker => st
      | QJson.real qs =>
        match qs.get? m.q_index with
        | none => st
        | some q =>
          let scores :=
            recordAnswer q.correct_index s.scores m.q_index pa.user_id
              pa.option_ids
          save_session st m.chat_id m.session_id (QJson.real qs) s.current_q
            scores s.start_ts s.end_ts

/-- The per-user tally as recorded in a given session of the store
(`emptyUserScore` when the session or the user entry is missing). -/
def userScoreIn (st : BotState) (chat_id : Int) (session_id : String)
    (user_id : Nat) : UserScore :=
  match load_session st chat_id session_id with
  | none => emptyUserScore
  | some s => getKeyD s.scores user_id emptyUserScore

/-- Models `datetime.utcfromtimestamp(ts).strftime('%Y-%m-%d %H:%M:%S UTC')`:
a pure, injective formatting of the timestamp.  No claim depends on the
exact date string. -/
def fmtTs (t : Int) : String := toString t

/-- `len(questions)` on the decoded `questions_json` value: the marker JSON
is the one-element list `["__AWAITING_CUSTOM__"]`. -/
def qjsonLen : QJson → Nat
  | QJson.real l => l.length
  | QJson.marker => 1

/-- The DM text of `end_quiz` (bot.py line 212). -/
def dmText (correct wrong attempted total_q : Nat) : String :=
  "Quiz Finished! Your results:\\n✅ Correct: " ++ toString correct ++
    "\\n❌ Wrong: " ++ toString wrong ++ "\\n📝 Attempted: " ++
    toString attempted ++ "/" ++ toString total_q

/-- A group-summary line of `end_quiz` (bot.py line 216); the HTML anchor
markup around "User" is elided (quote characters only, no claim depends on
it). -/
def summaryLine (uid correct wrong attempted : Nat) : String :=
  "User " ++ toString uid ++ ": ✅" ++ toString correct ++ " ❌" ++
    toString wrong ++ " (attempted " ++ toString attempted ++ ")"

/-- `end_quiz` (bot.py lines 192–228), called when the per-session timer
fires.  A missing session returns with no effect.  Otherwise: one DM per
scores entry (delivery failure per user is swallowed in the source and does
not alter state), then exactly one group message — either the results
summary or the no-participants text — and a final `save_session` that
writes all fields back unchanged (the source comment says "Optionally, mark
session ended" but no field is actually changed).  There is no phase
check. -/
def end_quiz (st : BotState) (session_id : String) (chat_id : Int) :
    BotState × List Action :=
  match load_session st chat_id session_id with
  | none => (st, [])
  | some s =>
    let total_q := qjsonLen s.questions
    let dms := s.scores.map (fun p =>
      Action.sendDM p.1 (dmText p.2.correct p.2.wrong (p.2.correct + p.2.wrong) total_q))
    let summary_lines := s.scores.map (fun p =>
      summaryLine p.1 p.2.correct p.2.wrong (p.2.correct + p.2.wrong))
    let summary :=
      if summary_lines.isEmpty then "Quiz ended! No participants answered."
      else "Quiz ended! Time: " ++ fmtTs s.end_ts ++ "\n\nResults summary:\n" ++
        String.intercalate "\n" summary_lines
    let st1 := save_session st chat_id session_id s.questions s.current_q
      s.scores s.start_ts s.end_ts
    (st1, dms ++ [Action.sendMessage chat_id summary])

/-- `get_answer_with_gemini` (bot.py lines 114–123): the placeholder LLM
call; always returns option index 0 with a note. -/
def get_answer_with_gemini (gemini_api_key : String) (_question : String)
    (_options : List String) : Option Nat × String :=
  if gemini_api_key == "" then
    (some 0, "(GEMINI_API_KEY not set) defaulting to option A. Please configure LLM API for real answers.")
  else
    (some 0, "(demo) choose A — replace with real LLM call.")

/-- `handle_document` (bot.py lines 276–312), modelled from the point the
file bytes are downloaded.  `extracted` is the outcome of
`extract_text_from_pdf_bytes` (exception message or text); `parse` is
`parse_mcqs_from_text` restricted to the received text (a pure regex
heuristic whose internals no claim depends on).  The optional
forward-to-backup-channel branch touches no session state and is elided. -/
def handle_document (st : BotState) (chat_id : Int) (file_name : String)
    (extracted : Except String String) (parse : String → List Question)
    (gemini_api_key : String) (now : Int) : BotState × List Action :=
  if !(fileNameIsPdf file_name) then
    (st, [Action.replyTo chat_id "Please upload a PDF file."])
  else
    let acts0 := [Action.replyTo chat_id "PDF received. Parsing... This may take a few seconds."]
    match extracted with
    | Except.error e =>
      (st, acts0 ++ [Action.sendMessage chat_id ("Error extracting text: " ++ e)])
    | Except.ok text =>
      let mcqs := parse text
      if mcqs.isEmpty then
        (st, acts0 ++ [Action.sendMessage chat_id "No MCQs detected. Please send a clearly formatted MCQ PDF (questions numbered, options A/B/C/D)."])
      else
        let mcqs2 := mcqs.map (fun q =>
          let r := get_answer_with_gemini gemini_api_key q.question q.options
          { q with correct_index := r.1, explanation := some r.2 })
        let session_id := "session_" ++ toString now
        let st1 := save_session st chat_id session_id (QJson.real mcqs2) 0 [] 0 0
        let kb := ([5, 10, 15, 20, 30, 45, 60] : List Nat).map (fun m =>
            (toString m ++ " min", "setdur:" ++ session_id ++ ":" ++ toString m))
          ++ [("Custom", "setdur:" ++ session_id ++ ":custom")]
        (st1, acts0 ++ [Action.sendKeyboard chat_id
          ("Parsed " ++ toString mcqs2.length ++ " questions. Set quiz duration (minutes):") kb])

/-- `q.get('question') or "Question"` (falsy = empty string in the model). -/
def qtextOf (q : Question) : String :=
  if q.question == "" then "Question" else q.question

/-- `q.get('options') or ["A","B","C","D"]`. -/
def optionsOf (q : Question) : List String :=
  if q.options.isEmpty then ["A", "B", "C", "D"] else q.options

/-- The plain-text fallback broadcast for one question (bot.py lines 352 and
404; the source f-strings contain the literal two-character sequence
backslash-n). -/
def fallbackText (idx : Nat) (qtext : String) (options : List String) : String :=
  "Q" ++ toString (idx + 1) ++ ": " ++ qtext ++ "\\nOptions:\\n" ++
    String.intercalate "\\n"
      (options.enum.map (fun p => toString (p.1 + 1) ++ ". " ++ p.2))

/-- The poll-distribution loop shared by `on_set_duration` (lines 344–353)
and `handle_custom_duration` (lines 397–405).  `pollIds idx` is the gateway
outcome for question `idx`: `some pid` when `bot.send_poll` succeeds and
returns poll id `pid`, `none` when it raises.  On success the poll is
recorded in `polls_map`; on failure the question is broadcast as a plain
message and the loop continues with the remaining questions. -/
def distributePolls : BotState → Int → String → List Question → Nat →
    (Nat → Option String) → BotState × List Action
  | st, _, _, [], _, _ => (st, [])
  | st, chat_id, session_id, q :: rest, idx, pollIds =>
    match pollIds idx with
    | some pid =>
      let st1 := map_poll_to_q st chat_id pid session_id idx
      let r := distributePolls st1 chat_id session_id rest (idx + 1) pollIds
      (r.1, Action.sendPoll chat_id (qtextOf q) (optionsOf q) :: r.2)
    | none =>
      let r := distributePolls st chat_id session_id rest (idx + 1) pollIds
      (r.1, Action.sendMessage chat_id (fallbackText idx (qtextOf q) (optionsOf q)) :: r.2)

/-- `on_set_duration` (bot.py lines 315–359), the `setdur:` callback.
`dataParts` is `call.data.split(":")` (any shape other than three parts
makes the tuple unpacking raise, answered with "Invalid data.").  The
"custom" branch REPLACEs the session row with the marker question list.  A
numeric value applies `int(val)` with NO range validation, fixes the
timestamps, resets the scores, distributes the polls and schedules
`end_quiz`.  If the stored `questions_json` is the marker, the distribution
loop raises on its first element in Python (a `str` has no `.get`) after
the save already committed — modelled by stopping after the save.  A
non-numeric `val` makes `int(val)` raise before any write. -/
def on_set_duration (st : BotState) (chat_id : Int) (dataParts : List String)
    (now : Int) (pollIds : Nat → Option String) : BotState × List Action :=
  match dataParts with
  | [_, session_id, val] =>
    if val == "custom" then
      (save_session st chat_id session_id QJson.marker 0 [] 0 0,
       [Action.answerCallback "Please send the number of minutes (e.g., 20) as a message now."])
    else
      match pyToInt? val with
      | none => (st, [])
      | some minutes =>
        match load_session st chat_id session_id with
        | none => (st, [Action.answerCallback "Session not found."])
        | some s =>
          let start_ts := now
          let end_ts := now + minutes * 60
          let st1 := save_session st chat_id session_id s.questions 0 []
            start_ts end_ts
          let ack := Action.answerCallback ("Quiz will run for " ++
            toString minutes ++ " minutes. Sending " ++
            toString (qjsonLen s.questions) ++ " questions now!")
          match s.questions with
          | QJson.marker => (st1, [ack])
          | QJson.real qs =>
            let r := distributePolls st1 chat_id session_id qs 0 pollIds
            (r.1, ack :: r.2 ++
              [Action.sendMessage chat_id ("Quiz started! It will end at " ++
                fmtTs end_ts ++ ". Use /result to check your score anytime."),
               Action.scheduleEnd chat_id session_id end_ts])
  | _ => (st, [Action.answerCallback "Invalid data."])

/-- The marker stored by the "Custom" duration branch. -/
def markerString : String := "__AWAITING_CUSTOM__"

/-- Whether `pat` occurs as a contiguous sublist of the second list. -/
def listContainsSub (pat : List Char) : List Char → Bool
  | [] => pat.isEmpty
  | c :: t => pat.isPrefixOf (c :: t) || listContainsSub pat t

/-- Substring test used to model SQL `LIKE '%__AWAITING_CUSTOM__%'` and
Python `"__AWAITING_CUSTOM__" in questions_json`. -/
def strContainsMarker (s : String) : Bool :=
  listContainsSub markerString.data s.data

/-- Whether the JSON of one question dict contains the marker substring
(iff one of its string fields does: the marker has no JSON-escaped
characters and cannot straddle field boundaries). -/
def qHasMarkerText (q : Question) : Bool :=
  strContainsMarker q.question || q.options.any strContainsMarker ||
    (match q.explanation with
     | some e => strContainsMarker e
     | none => false)

/-- Whether `questions_json` contains the marker substring. -/
def qjsonHasMarker : QJson → Bool
  | QJson.marker => true
  | QJson.real l => l.any qHasMarkerText

/-- `SELECT ... WHERE chat_id=? ORDER BY rowid DESC LIMIT 1`. -/
def latestSession (st : BotState) (chat_id : Int) : Option SessionRow :=
  (st.sessions.filter (fun r => r.chat_id == chat_id)).getLast?

/-- `SELECT ... WHERE chat_id=? AND questions_json NOT LIKE
'%__AWAITING_CUSTOM__%' ORDER BY rowid DESC LIMIT 1`. -/
def latestRealSession (st : BotState) (chat_id : Int) : Option SessionRow :=
  (st.sessions.filter
      (fun r => r.chat_id == chat_id && !qjsonHasMarker r.questions)).getLast?

/-- The handler guard `m.text and m.text.strip().isdigit()`: the stripped
text is nonempty and all (ASCII, in the model) digits. -/
def isDigitsText (s : String) : Bool :=
  (!(stripChars s.data).isEmpty) && (stripChars s.data).all Char.isDigit

/-- `int(message.text.strip())` on a digits-only string. -/
def digitsToNat (s : String) : Nat := digitsVal (stripChars s.data)

/-- `handle_custom_duration` (bot.py lines 362–409).  Registered for
digits-only messages (`(st, [])` models "handler not invoked" otherwise).
It proceeds only when the latest stored session of the chat has the
awaiting-custom marker in its `questions_json`; an out-of-range value
(0 or more than 1440 — a negative number cannot pass the digits guard) is
rejected with a reply and no write.  Otherwise it looks up the latest
session of the chat whose `questions_json` does not contain the marker,
and starts the quiz on that session exactly as `on_set_duration` does. -/
def handle_custom_duration (st : BotState) (chat_id : Int) (text : String)
    (now : Int) (pollIds : Nat → Option String) : BotState × List Action :=
  if !(isDigitsText text) then (st, [])
  else
    match latestSession st chat_id with
    | none => (st, [])
    | some row =>
      if !(qjsonHasMarker row.questions) then (st, [])
      else
        let minutes := digitsToNat text
        if minutes = 0 ∨ minutes > 1440 then
          (st, [Action.replyTo chat_id "Please provide a reasonable duration in minutes (1-1440)."])
        else
          match latestRealSession st chat_id with
          | none =>
            (st, [Action.replyTo chat_id "Could not find parsed questions session. Please resend PDF."])
          | some rr =>
            match load_session st chat_id rr.session_id with
            | none => (st, [Action.replyTo chat_id "Session missing. Please resend PDF."])
            | some s =>
              let start_ts := now
              let end_ts := now + (minutes : Int) * 60
              let st1 := save_session st chat_id rr.session_id s.questions 0 []
                start_ts end_ts
              let ack := Action.replyTo chat_id ("Quiz will run for " ++
                toString minutes ++ " minutes. Sending " ++
                toString (qjsonLen s.questions) ++ " questions now!")
              match s.questions with
              | QJson.marker => (st1, [ack])
              | QJson.real qs =>
                let r := distributePolls st1 chat_id rr.session_id qs 0 pollIds
                (r.1, ack :: r.2 ++
                  [Action.sendMessage chat_id ("Quiz started and will end at " ++
                    fmtTs end_ts ++ "."),
                   Action.scheduleEnd chat_id rr.session_id end_ts])

/-! ## Helper lemmas -/

theorem getKey_setKey_self {α : Type} (l : List (Nat × α)) (k : Nat) (v : α) :
    getKey (setKey l k v) k = some v := by
  induction l with
  | nil => simp [setKey, getKey]
  | cons p t ih =>
    obtain ⟨k0, v0⟩ := p
    by_cases h : k0 = k
    · simp [setKey, getKey, h]
    · simp [setKey, getKey, h, ih]

theorem getKeyD_setKey_self {α : Type} (l : List (Nat × α)) (k : Nat) (v d : α) :
    getKeyD (setKey l k v) k d = v := by
  simp [getKeyD, getKey_setKey_self]

theorem find?_filter_not {α : Type} (l : List α) (p : α → Bool) :
    (l.filter (fun a => !(p a))).find? p = none := by
  induction l with
  | nil => rfl
  | cons a t ih =>
    cases h : p a with
    | true => simp [List.filter_cons, h, ih]
    | false => simp [List.filter_cons, List.find?_cons, h, ih]

/-- Loading the key just written by `save_session` returns exactly the
written row. -/
theorem load_save_self (st : BotState) (c : Int) (sid : String) (qj : QJson)
    (cq : Nat) (sc : Scores) (a b : Int) :
    load_session (save_session st c sid qj cq sc a b) c sid =
      some ⟨qj, cq, sc, a, b⟩ := by
  unfold load_session save_session
  rw [List.find?_append, find?_filter_not]
  simp [List.find?_cons]

/-! ## Concrete fixtures used by counterexamples and witnesses -/

/-- A two-option question whose designated-correct option is index 0. -/
def fixQ : Question := ⟨1, "Q1", ["a", "b"], some 0, none⟩

/-- A running session for chat 1 holding `fixQ` and no scores yet. -/
def fixRow : SessionRow := ⟨1, "s", QJson.real [fixQ], 0, [], 0, 0⟩

/-- The poll of question 0 of that session. -/
def fixPoll : PollRow := ⟨1, "p", "s", 0⟩

/-- A store holding the one session and its one distributed poll. -/
def fixState : BotState := ⟨[fixRow], [fixPoll]⟩

/-- User 7 answers poll "p" with option 0 (the correct one). -/
def fixAnswer : PollAnswer := ⟨"p", 7, [0]⟩

/-! ## Claims -/

/-- C1: the claim says resubmitting the same answer any number of times
leaves the tally (correct count, wrong count, answer map) identical to a
single submission.  The code double-counts: after user 7 submits the
correct option of question 0 twice, the recorded answer map is the same as
after one submission but the correct counter is 2, not 1 — the
unconditional `+= 1` in `handle_poll_answer` runs again on the duplicate
event. -/
theorem C1_resubmission_double_counts :
    (userScoreIn (handle_poll_answer (handle_poll_answer fixState fixAnswer)
        fixAnswer) 1 "s" 7).correct = 2 ∧
    (userScoreIn (handle_poll_answer fixState fixAnswer) 1 "s" 7).correct = 1 ∧
    (userScoreIn (handle_poll_answer (handle_poll_answer fixState fixAnswer)
        fixAnswer) 1 "s" 7).answers =
      (userScoreIn (handle_poll_answer fixState fixAnswer) 1 "s" 7).answers := by
  decide

/-- C2: the claim says correct + wrong always equals the number of distinct
question ordinals the user has answered.  After the same user answers the
same question twice, the code has correct + wrong = 2 while the answer map
holds a single distinct question ordinal. -/
theorem C2_counts_exceed_distinct_answers :
    (userScoreIn (handle_poll_answer (handle_poll_answer fixState fixAnswer)
          fixAnswer) 1 "s" 7).correct +
      (userScoreIn (handle_poll_answer (handle_poll_answer fixState fixAnswer)
          fixAnswer) 1 "s" 7).wrong = 2 ∧
    (userScoreIn (handle_poll_answer (handle_poll_answer fixState fixAnswer)
        fixAnswer) 1 "s" 7).answers.length = 1 := by
  decide

/-- C3 counterexample: recording an abstain (empty `option_ids`) is claimed
to increment neither counter, but `recordAnswer` on an empty selection
takes the `else` branch and increments the wrong count from 0 to 1. -/
theorem C3_abstain_increments_wrong :
    (getKeyD (recordAnswer (some 0) [] 0 7 []) 7 emptyUserScore).wrong ≠
      (getKeyD ([] : Scores) 7 emptyUserScore).wrong := by
  decide

/-- C3 (amended): recording an answer event with an empty `option_ids`
(abstain) leaves the user's correct count unchanged and increments the
user's wrong count by one, besides recording `None` in the answer map. -/
theorem C3_abstain_scored_wrong (ci : Option Nat) (scores : Scores)
    (q u : Nat) :
    (getKeyD (recordAnswer ci scores q u []) u emptyUserScore).correct =
      (getKeyD scores u emptyUserScore).correct ∧
    (getKeyD (recordAnswer ci scores q u []) u emptyUserScore).wrong =
      (getKeyD scores u emptyUserScore).wrong + 1 ∧
    (getKeyD (recordAnswer ci scores q u []) u emptyUserScore).answers =
      setKey (getKeyD scores u emptyUserScore).answers q none := by
  unfold recordAnswer
  simp [getKeyD_setKey_self, List.head?]

/-- C4: if the question resolved for an incoming poll answer has an
unresolved (`None`) correct index, handling the event never increments the
answering user's correct count — the event is scored wrong instead. -/
theorem C4_unresolved_never_correct (st : BotState) (pa : PollAnswer)
    (m : PollInfo) (s : Session) (qs : List Question) (q : Question)
    (h1 : lookup_poll st pa.poll_id = some m)
    (h2 : load_session st m.chat_id m.session_id = some s)
    (h3 : s.questions = QJson.real qs)
    (h4 : qs.get? m.q_index = some q)
    (h5 : q.correct_index = none) :
    (userScoreIn (handle_poll_answer st pa) m.chat_id m.session_id
        pa.user_id).correct =
      (userScoreIn st m.chat_id m.session_id pa.user_id).correct ∧
    (userScoreIn (handle_poll_answer st pa) m.chat_id m.session_id
        pa.user_id).wrong =
      (userScoreIn st m.chat_id m.session_id pa.user_id).wrong + 1 := by
  unfold handle_poll_answer userScoreIn
  simp only [h1, h2, h3, h4, h5]
  rw [load_save_self]
  unfold recordAnswer
  cases pa.option_ids with
  | nil => simp [getKeyD_setKey_self, List.head?]
  | cons a t => simp [getKeyD_setKey_self, List.head?]

/-- A state whose only question has an unresolved correct index. -/
def fixStateNull : BotState :=
  ⟨[⟨1, "s", QJson.real [⟨1, "Q1", ["a", "b"], none, none⟩], 0, [], 0, 0⟩],
   [⟨1, "p", "s", 0⟩]⟩

/-- C4 witness: user 7 answers option 1 of the unresolved question; the
correct count stays 0 and the wrong count becomes 1. -/
theorem C4_witness :
    (userScoreIn (handle_poll_answer fixStateNull ⟨"p", 7, [1]⟩) 1 "s"
        7).correct =
      (userScoreIn fixStateNull 1 "s" 7).correct ∧
    (userScoreIn (handle_poll_answer fixStateNull ⟨"p", 7, [1]⟩) 1 "s"
        7).wrong =
      (userScoreIn fixStateNull 1 "s" 7).wrong + 1 :=
  C4_unresolved_never_correct fixStateNull ⟨"p", 7, [1]⟩ ⟨1, "s", 0⟩
    ⟨QJson.real [⟨1, "Q1", ["a", "b"], none, none⟩], 0, [], 0, 0⟩
    [⟨1, "Q1", ["a", "b"], none, none⟩] ⟨1, "Q1", ["a", "b"], none, none⟩
    (by decide) (by decide) rfl (by decide) rfl

/-- A session of chat 1 in which user 7 already answered question 0
correctly. -/
def fixStateScored : BotState :=
  ⟨[⟨1, "s", QJson.real [fixQ], 0, [(7, ⟨1, 0, [(0, some 0)]⟩)], 0, 60⟩],
   [fixPoll]⟩

/-- C5 counterexample: the claim says invoking the end-of-quiz transition
twice delivers exactly one summary, the second invocation being a phase
checked no-op.  `end_quiz` has no phase check: invoked twice on the same
session it sends the group summary twice. -/
theorem C5_second_invocation_delivers_again :
    (((end_quiz fixStateScored "s" 1).2 ++
        (end_quiz (end_quiz fixStateScored "s" 1).1 "s" 1).2).countP
      (fun a => match a with
        | Action.sendMessage c _ => c == 1
        | _ => false)) = 2 := by
  decide

/-- C5 (amended): each invocation of `end_quiz` on an existing session
delivers exactly one group summary and leaves the session in the store
unchanged (there is no phase marker), so a second invocation delivers a
second summary; the only no-op case is a missing session. -/
theorem C5_each_invocation_delivers (st : BotState) (sid : String)
    (chat : Int) :
    (load_session st chat sid = none → end_quiz st sid chat = (st, [])) ∧
    ∀ s, load_session st chat sid = some s →
      ((end_quiz st sid chat).2.countP (fun a => match a with
          | Action.sendMessage c _ => c == chat
          | _ => false) = 1 ∧
       load_session (end_quiz st sid chat).1 chat sid = some s) := by
  constructor
  · intro h
    unfold end_quiz
    rw [h]
  · intro s h
    unfold end_quiz
    simp only [h]
    constructor
    · simp [List.countP_append, List.countP_map, Function.comp,
        List.countP_cons]
    · rw [load_save_self]

/-- C5 witness: on the concrete scored session, one invocation emits one
group summary and keeps the session loadable. -/
theorem C5_witness :
    ((end_quiz fixStateScored "s" 1).2.countP (fun a => match a with
        | Action.sendMessage c _ => c == 1
        | _ => false) = 1) ∧
    load_session (end_quiz fixStateScored "s" 1).1 1 "s" =
      some ⟨QJson.real [fixQ], 0, [(7, ⟨1, 0, [(0, some 0)]⟩)], 0, 60⟩ :=
  (C5_each_invocation_delivers fixStateScored "s" 1).2
    ⟨QJson.real [fixQ], 0, [(7, ⟨1, 0, [(0, some 0)]⟩)], 0, 60⟩ (by decide)

/-- C6 counterexample: the claim says every duration request of 0 minutes
is rejected with no state change, but the `setdur:` callback handler
applies `int(val)` with no range check: a callback carrying duration 0
fixes the timestamps, resets the scores and distributes the polls —
the store changes and no rejection occurs. -/
theorem C6_callback_zero_not_rejected :
    (on_set_duration fixState 1 ["setdur", "s", "0"] 100
      (fun _ => some "p1")).1 ≠ fixState := by
  decide

/-- C6 (amended): an out-of-range duration (0 or more than 1440; a negative
number cannot pass the digits-only guard) arriving at the custom-duration
message handler causes no state change, and is rejected with the error
reply when the latest stored session of the chat is awaiting a custom
value; the duration-menu callback handler performs no range validation. -/
theorem C6_custom_out_of_range_rejected (st : BotState) (chat : Int)
    (text : String) (now : Int) (pollIds : Nat → Option String)
    (h1 : isDigitsText text = true)
    (h2 : digitsToNat text = 0 ∨ digitsToNat text > 1440) :
    (handle_custom_duration st chat text now pollIds).1 = st ∧
    ∀ row, latestSession st chat = some row →
      qjsonHasMarker row.questions = true →
      (handle_custom_duration st chat text now pollIds).2 =
        [Action.replyTo chat "Please provide a reasonable duration in minutes (1-1440)."] := by
  constructor
  · cases hls : latestSession st chat with
    | none => simp [handle_custom_duration, h1, hls]
    | some row =>
      cases hmk : qjsonHasMarker row.questions with
      | false => simp [handle_custom_duration, h1, hls, hmk]
      | true => simp [handle_custom_duration, h1, hls, hmk, h2]
  · intro row hls hmk
    simp [handle_custom_duration, h1, hls, hmk, h2]

/-- A chat-1 store whose only session row is the awaiting-custom marker. -/
def fixStateMarker : BotState := ⟨[⟨1, "m", QJson.marker, 0, [], 0, 0⟩], []⟩

/-- C6 witness: a custom duration of 2000 minutes on a chat awaiting a
custom value is rejected with the error reply and no state change. -/
theorem C6_witness :
    (handle_custom_duration fixStateMarker 1 "2000" 100
        (fun _ => some "p1")).1 = fixStateMarker ∧
    (handle_custom_duration fixStateMarker 1 "2000" 100
        (fun _ => some "p1")).2 =
      [Action.replyTo 1 "Please provide a reasonable duration in minutes (1-1440)."] :=
  ⟨(C6_custom_out_of_range_rejected fixStateMarker 1 "2000" 100
      (fun _ => some "p1") (by decide) (by decide)).1,
   (C6_custom_out_of_range_rejected fixStateMarker 1 "2000" 100
      (fun _ => some "p1") (by decide) (by decide)).2
     ⟨1, "m", QJson.marker, 0, [], 0, 0⟩ (by decide) rfl⟩

/-- C7: when the parser yields zero questions, `handle_document`
short-circuits with the user message, before any session is stored and
before any duration prompt; and in every case every stored row either
pre-existed or holds a nonempty real question list — a session with an
empty question list is never stored. -/
theorem C7_empty_parse_short_circuits (st : BotState) (chat : Int)
    (fn : String) (ext : Except String String)
    (parse : String → List Question) (key : String) (now : Int) :
    (∀ text, ext = Except.ok text → parse text = [] →
       fileNameIsPdf fn = true →
       handle_document st chat fn ext parse key now =
         (st, [Action.replyTo chat "PDF received. Parsing... This may take a few seconds.",
               Action.sendMessage chat "No MCQs detected. Please send a clearly formatted MCQ PDF (questions numbered, options A/B/C/D)."])) ∧
    ∀ row ∈ (handle_document st chat fn ext parse key now).1.sessions,
      row ∈ st.sessions ∨ ∃ qs, row.questions = QJson.real qs ∧ qs ≠ [] := by
  constructor
  · intro text he hp hf
    subst he
    simp [handle_document, hf, hp]
  · intro row hrow
    by_cases hf : fileNameIsPdf fn = true
    · cases ext with
      | error e =>
        simp [handle_document, hf] at hrow
        exact Or.inl hrow
      | ok text =>
        cases hp : (parse text).isEmpty with
        | true =>
          simp [handle_document, hf, hp] at hrow
          exact Or.inl hrow
        | false =>
          simp only [handle_document, hf, hp, if_true, Bool.not_false,
            Bool.false_eq_true, if_false, save_session] at hrow
          rcases List.mem_append.1 hrow with hmem | hmem
          · exact Or.inl (List.mem_filter.1 hmem).1
          · refine Or.inr ⟨(parse text).map (fun q =>
              let r := get_answer_with_gemini key q.question q.options
              { q with correct_index := r.1, explanation := some r.2 }), ?_, ?_⟩
            · rcases List.mem_singleton.1 hmem with rfl
              rfl
            · simp only [ne_eq, List.map_eq_nil_iff]
              intro hnil
              rw [hnil] at hp
              simp [List.isEmpty] at hp
    · simp [handle_document, hf] at hrow
      exact Or.inl hrow

/-- C7 witness: a PDF whose text parses to zero questions leaves the store
unchanged and only produces the parsing reply and the no-MCQs message. -/
theorem C7_witness :
    handle_document fixState 1 "quiz.pdf" (Except.ok "t") (fun _ => []) ""
        50 =
      (fixState,
       [Action.replyTo 1 "PDF received. Parsing... This may take a few seconds.",
        Action.sendMessage 1 "No MCQs detected. Please send a clearly formatted MCQ PDF (questions numbered, options A/B/C/D)."]) :=
  (C7_empty_parse_short_circuits fixState 1 "quiz.pdf" (Except.ok "t")
    (fun _ => []) "" 50).1 "t" rfl rfl (by decide)

/-- C8: the poll-distribution loop produces exactly one gateway action per
question, in order: a poll when `send_poll` succeeds and the plain
informational fallback message for that question when it fails — a failure
on one question never aborts the remaining distribution. -/
theorem C8_poll_failure_falls_back (st : BotState) (chat : Int)
    (sid : String) (pollIds : Nat → Option String) (qs : List Question)
    (idx : Nat) :
    (distributePolls st chat sid qs idx pollIds).2 =
      (qs.enumFrom idx).map (fun p =>
        match pollIds p.1 with
        | some _ => Action.sendPoll chat (qtextOf p.2) (optionsOf p.2)
        | none =>
          Action.sendMessage chat
            (fallbackText p.1 (qtextOf p.2) (optionsOf p.2))) := by
  induction qs generalizing st idx with
  | nil => rfl
  | cons q rest ih =>
    cases hp : pollIds idx with
    | some pid => simp [distributePolls, hp, List.enumFrom_cons, ih]
    | none => simp [distributePolls, hp, List.enumFrom_cons, ih]

/-- C9: a poll-answer event whose poll id has no entry in `polls_map`, or
whose mapped session does not exist, leaves the whole store unchanged. -/
theorem C9_unmapped_event_is_noop (st : BotState) (pa : PollAnswer)
    (h : lookup_poll st pa.poll_id = none ∨
      ∀ m, lookup_poll st pa.poll_id = some m →
        load_session st m.chat_id m.session_id = none) :
    handle_poll_answer st pa = st := by
  unfold handle_poll_answer
  rcases h with h | h
  · rw [h]
  · cases hm : lookup_poll st pa.poll_id with
    | none => rfl
    | some m => simp [h m hm]

/-- C9 witness: an answer for an unmapped poll id changes nothing. -/
theorem C9_witness : handle_poll_answer fixState ⟨"zzz", 5, [0]⟩ = fixState :=
  C9_unmapped_event_is_noop fixState ⟨"zzz", 5, [0]⟩ (Or.inl (by decide))

/-- C10: selecting the "Custom" duration for `(chat, sid)` overwrites that
session row with the one-element marker list (discarding whatever
questions it held), and the custom-duration message handler leaves the
store unchanged — starts no quiz — when no stored session of the chat
holds non-marker questions. -/
theorem C10_custom_marker_overwrite (st : BotState) (chat : Int)
    (s1 sid : String) (now : Int) (pollIds : Nat → Option String)
    (text : String) :
    load_session (on_set_duration st chat [s1, sid, "custom"] now
        pollIds).1 chat sid = some ⟨QJson.marker, 0, [], 0, 0⟩ ∧
    (latestRealSession st chat = none →
      (handle_custom_duration st chat text now pollIds).1 = st) := by
  constructor
  · exact load_save_self st chat sid QJson.marker 0 [] 0 0
  · intro h
    cases h1 : isDigitsText text with
    | false => simp [handle_custom_duration, h1]
    | true =>
      cases hls : latestSession st chat with
      | none => simp [handle_custom_duration, h1, hls]
      | some row =>
        cases hmk : qjsonHasMarker row.questions with
        | false => simp [handle_custom_duration, h1, hls, hmk]
        | true =>
          by_cases hr : digitsToNat text = 0 ∨ digitsToNat text > 1440
          · simp [handle_custom_duration, h1, hls, hmk, hr]
          · simp [handle_custom_duration, h1, hls, hmk, hr, h]

/-- C10 witness: "Custom" replaces the parsed questions of `(1, "s")` with
the marker row, and a custom value for a chat with no non-marker session
leaves the store unchanged. -/
theorem C10_witness :
    load_session (on_set_duration fixState 1 ["setdur", "s", "custom"] 9
        (fun _ => none)).1 1 "s" = some ⟨QJson.marker, 0, [], 0, 0⟩ ∧
    (handle_custom_duration fixState 2 "7" 9 (fun _ => none)).1 = fixState :=
  ⟨(C10_custom_marker_overwrite fixState 1 "setdur" "s" 9 (fun _ => none)
      "7").1,
   (C10_custom_marker_overwrite fixState 2 "setdur" "s" 9 (fun _ => none)
      "7").2 (by decide)⟩

end QuizBot
